import Mathlib

/-!
Shallow embedding of the SWMM5 groundwater module (gwater.c) over the
rationals.  Machine doubles are modelled as exact rationals; the external
collaborators of the module (the adaptive ODE integrator `odesolve_integrate`,
the math-expression evaluator `mathexpr_eval`, the libm functions `pow` and
`exp`, the unit-conversion provider `UCF`, the monthly evaporation pattern
lookup and the drainage-node state) are modelled as explicit black-box inputs,
exactly at the boundaries where gwater.c consumes them.
-/

namespace Gwater

/-- Sentinel value for unset optional parameters (consts.h MISSING = -1.e10). -/
def MISSING : ℚ := -10000000000

/-- Tolerance for moisture and depth nudging (gwater.c XTOL = 0.001). -/
def XTOL : ℚ := 1 / 1000

/-- Aquifer parameter set (TAquifer in objects.h), fields as assigned by
gwater_readAquiferParams, already converted to internal units. -/
structure TAquifer where
  porosity : ℚ
  wiltingPoint : ℚ
  fieldCapacity : ℚ
  conductivity : ℚ
  conductSlope : ℚ
  tensionSlope : ℚ
  upperEvapFrac : ℚ
  lowerEvapDepth : ℚ
  lowerLossCoeff : ℚ
  bottomElev : ℚ
  waterTableElev : ℚ
  upperMoisture : ℚ
  deriving DecidableEq

/-- Groundwater state record of one subcatchment (TGroundwater in objects.h):
static geometry and flow coefficients plus the dynamic state mutated by
gwater_getGroundwater. -/
structure TGroundwater where
  surfElev : ℚ
  a1 : ℚ
  b1 : ℚ
  a2 : ℚ
  b2 : ℚ
  a3 : ℚ
  fixedDepth : ℚ
  nodeElev : ℚ
  bottomElev : ℚ
  waterTableElev : ℚ
  upperMoisture : ℚ
  theta : ℚ
  lowerDepth : ℚ
  oldFlow : ℚ
  newFlow : ℚ
  evapLoss : ℚ
  maxInfilVol : ℚ
  deriving DecidableEq

/-- Drainage-node boundary state read by gwater_getGroundwater (read-only). -/
structure TNode where
  invertElev : ℚ
  newDepth : ℚ
  inflow : ℚ
  newVolume : ℚ
  deriving DecidableEq

/-- The shared scratch context (TGwaterShared) built once per step by
gwater_getGroundwater and read by the flux routines.  The user lateral/deep
flow expressions are black boxes evaluated by the external mathexpr engine,
so they appear here as the optional value the evaluator returns for this
derivative evaluation; likewise the monthly pattern factor, the unit
conversion factors and the libm pow and exp functions are external inputs. -/
structure GwaterShared where
  A : TAquifer
  GW : TGroundwater
  infil : ℚ
  maxEvap : ℚ
  availEvap : ℚ
  totalDepth : ℚ
  hstar : ℚ
  hsw : ℚ
  maxUpperPerc : ℚ
  maxGWFlowPos : ℚ
  maxGWFlowNeg : ℚ
  tstep : ℚ
  area : ℚ
  fracPerv : ℚ
  patFactor : Option ℚ
  latFlowExprVal : Option ℚ
  deepFlowExprVal : Option ℚ
  ucfLength : ℚ
  ucfRainfall : ℚ
  ucfGwflow : ℚ
  powFn : ℚ → ℚ → ℚ
  expFn : ℚ → ℚ

/-- Instantaneous flux values computed by getFluxes and stored in the shared
context (UpperEvap, LowerEvap, UpperPerc, LowerLoss, GWFlow, plus the Hgw and
Theta values saved for the expression variables). -/
structure Fluxes where
  hgw : ℚ
  thetaVal : ℚ
  upperEvap : ℚ
  lowerEvap : ℚ
  upperPerc : ℚ
  lowerLoss : ℚ
  gwFlow : ℚ
  deriving DecidableEq

/-- getState (gwater.c lines 402-414): exports the ordered 4-tuple
(theta, bottomElev + lowerDepth, newFlow, maxInfilVol). -/
def gwater_getState (gw : TGroundwater) : ℚ × ℚ × ℚ × ℚ :=
  (gw.theta, gw.bottomElev + gw.lowerDepth, gw.newFlow, gw.maxInfilVol)

/-- setState (gwater.c lines 418-432): restores theta, lowerDepth (from the
absolute elevation) and oldFlow, and restores maxInfilVol only when the
fourth element is not the MISSING sentinel. -/
def gwater_setState (gw : TGroundwater) (x : ℚ × ℚ × ℚ × ℚ) : TGroundwater :=
  { gw with
    theta := x.1
    lowerDepth := x.2.1 - gw.bottomElev
    oldFlow := x.2.2.1
    maxInfilVol := if x.2.2.2 ≠ MISSING then x.2.2.2 else gw.maxInfilVol }

/-- gwater_getVolume (gwater.c lines 436-451): total groundwater stored per
unit area; 0 when the subcatchment has no groundwater object. -/
def gwater_getVolume (gw : Option TGroundwater) (a : TAquifer) : ℚ :=
  match gw with
  | none => 0
  | some g =>
      (g.surfElev - g.bottomElev - g.lowerDepth) * g.theta +
        g.lowerDepth * a.porosity

/-- Monthly-adjusted upper zone evaporation fraction (gwater.c lines
733-742): the aquifer fraction times the monthly pattern factor when a
pattern is assigned. -/
def gwUpperFrac (c : GwaterShared) : ℚ :=
  c.A.upperEvapFrac * c.patFactor.getD 1

/-- Upper zone evaporation rate (gwater.c lines 744-752): the adjusted
fraction applied to the maximum rate, limited by the available rate, and
gated to zero unless theta exceeds the wilting point. -/
def gwUpperEvap (c : GwaterShared) (theta : ℚ) : ℚ :=
  if c.A.wiltingPoint < theta then min (gwUpperFrac c * c.maxEvap) c.availEvap
  else 0

/-- Fraction of the lower evaporation depth extending into the saturated
zone (gwater.c lines 757-761). -/
def gwLowerFrac (c : GwaterShared) (upperDepth : ℚ) : ℚ :=
  min (max ((c.A.lowerEvapDepth - upperDepth) / c.A.lowerEvapDepth) 0) 1

/-- Lower zone evaporation rate (gwater.c lines 754-767): proportional to the
saturated fraction and the evaporation not used by the upper zone, capped by
the available evaporation remaining after the upper zone draw. -/
def gwLowerEvap (c : GwaterShared) (theta upperDepth : ℚ) : ℚ :=
  if 0 < c.A.lowerEvapDepth then
    min (gwLowerFrac c upperDepth * (1 - gwUpperFrac c) * c.maxEvap)
      (c.availEvap - gwUpperEvap c theta)
  else 0

/-- getEvapRates (gwater.c lines 714-768): upper and lower zone
evapotranspiration rates, both zero while infiltration is occurring.
Returns the pair (UpperEvap, LowerEvap). -/
def getEvapRates (c : GwaterShared) (theta upperDepth : ℚ) : ℚ × ℚ :=
  if 0 < c.infil then (0, 0)
  else (gwUpperEvap c theta, gwLowerEvap c theta upperDepth)

/-- getUpperPerc (gwater.c lines 772-800): percolation rate from the upper to
the lower zone; exp is the external libm exponential. -/
def getUpperPerc (c : GwaterShared) (theta upperDepth : ℚ) : ℚ :=
  if upperDepth ≤ 0 ∨ theta ≤ c.A.fieldCapacity then 0
  else
    let hydcon := c.A.conductivity * c.expFn ((theta - c.A.porosity) * c.A.conductSlope)
    hydcon * (1 + c.A.tensionSlope * 2 * (theta - c.A.fieldCapacity) / upperDepth)

/-- The combined unclamped lateral flow of getGWFlow (gwater.c lines 818-836):
groundwater term minus surface-water term plus interaction term, converted to
internal flow units.  pow is the external libm power function. -/
def gwRawFlow (c : GwaterShared) (lowerDepth : ℚ) : ℚ :=
  let t1 :=
    if c.GW.b1 = 0 then c.GW.a1
    else c.GW.a1 * c.powFn ((lowerDepth - c.hstar) * c.ucfLength) c.GW.b1
  let t2 :=
    if c.GW.b2 = 0 then c.GW.a2
    else if c.hstar < c.hsw then
      c.GW.a2 * c.powFn ((c.hsw - c.hstar) * c.ucfLength) c.GW.b2
    else 0
  let t3 := c.GW.a3 * lowerDepth * c.hsw * c.ucfLength * c.ucfLength
  (t1 - t2 + t3) / c.ucfGwflow

/-- getGWFlow (gwater.c lines 804-839): zero at or below the Hstar threshold;
otherwise the raw combined flow, clamped to zero when negative and the
interaction coefficient a3 is nonzero. -/
def getGWFlow (c : GwaterShared) (lowerDepth : ℚ) : ℚ :=
  if lowerDepth ≤ c.hstar then 0
  else if gwRawFlow c lowerDepth < 0 ∧ c.GW.a3 ≠ 0 then 0
  else gwRawFlow c lowerDepth

/-- Lower depth clamped to [0, totalDepth] at the start of getFluxes
(gwater.c lines 638-639). -/
def clampLowerDepth (c : GwaterShared) (lowerDepth : ℚ) : ℚ :=
  min (max lowerDepth 0) c.totalDepth

/-- Deep percolation loss rate (gwater.c lines 653-659): the user deep-flow
expression value (unit-converted) when one is supplied, otherwise the
coefficient formula, in both cases capped at lowerDepth divided by the time
step. -/
def gwLowerLoss (c : GwaterShared) (ld : ℚ) : ℚ :=
  min
    (match c.deepFlowExprVal with
     | some v => v / c.ucfRainfall
     | none => c.A.lowerLossCoeff * ld / c.totalDepth)
    (ld / c.tstep)

/-- Lateral flow before the directional cap (gwater.c lines 662-667): the
built-in formula plus the unit-converted user expression value when one is
supplied. -/
def gwLatFlowRaw (c : GwaterShared) (ld : ℚ) : ℚ :=
  match c.latFlowExprVal with
  | some v => getGWFlow c ld + v / c.ucfGwflow
  | none => getGWFlow c ld

/-- Lateral flow with the directional cap applied (gwater.c lines 668-671):
non-negative flow is ceiling-capped, negative flow is floor-capped. -/
def gwLatFlow (c : GwaterShared) (ld : ℚ) : ℚ :=
  if 0 ≤ gwLatFlowRaw c ld then min (gwLatFlowRaw c ld) c.maxGWFlowPos
  else max (gwLatFlowRaw c ld) c.maxGWFlowNeg

/-- getFluxes (gwater.c lines 625-672): clamps the lower depth to
[0, totalDepth], then computes evaporation, percolation, deep loss and
lateral groundwater flow, each with its cap. -/
def getFluxes (c : GwaterShared) (theta lowerDepth : ℚ) : Fluxes :=
  let ld := clampLowerDepth c lowerDepth
  let upperDepth := c.totalDepth - ld
  { hgw := ld
    thetaVal := theta
    upperEvap := (getEvapRates c theta upperDepth).1
    lowerEvap := (getEvapRates c theta upperDepth).2
    upperPerc := min (getUpperPerc c theta upperDepth) c.maxUpperPerc
    lowerLoss := gwLowerLoss c ld
    gwFlow := gwLatFlow c ld }

/-- The five volumes reported to massbal_updateGwaterTotals. -/
structure MassBalVols where
  vInfil : ℚ
  vUpperEvap : ℚ
  vLowerEvap : ℚ
  vLowerPerc : ℚ
  vGwater : ℚ
  deriving DecidableEq

/-- updateMassBal (gwater.c lines 595-619): converts each rate to a volume by
multiplying by area times tStep; the exchanged-groundwater volume uses the
trapezoidal average of old and new lateral flow. -/
def updateMassBal (infilR upperEvap lowerEvap lowerLoss oldFlow newFlow
    area tStep : ℚ) : MassBalVols :=
  let ft2sec := area * tStep
  { vInfil := infilR * ft2sec
    vUpperEvap := upperEvap * ft2sec
    vLowerEvap := lowerEvap * ft2sec
    vLowerPerc := lowerLoss * ft2sec
    vGwater := 1 / 2 * (oldFlow + newFlow) * ft2sec }

/-- The per-step report passed to stats_updateGwaterStats. -/
structure StatsReport where
  infil : ℚ
  evapLoss : ℚ
  gwFlow : ℚ
  lowerLoss : ℚ
  theta : ℚ
  wtElev : ℚ
  tStep : ℚ
  deriving DecidableEq

/-- The moisture part of the post-integration clamping (gwater.c lines
558-563): theta is raised to the wilting point, and when it reaches the
porosity both theta and the lower depth are nudged below their limits by
XTOL. -/
def clampTheta (a : TAquifer) (totalDepth : ℚ) (x : ℚ × ℚ) : ℚ × ℚ :=
  if a.porosity ≤ max x.1 a.wiltingPoint then
    (a.porosity - XTOL, totalDepth - XTOL)
  else (max x.1 a.wiltingPoint, x.2)

/-- The depth part of the post-integration clamping (gwater.c lines 564-568):
the lower depth is raised to 0 and, when it reaches the total depth, nudged
below it by XTOL. -/
def clampDepth (totalDepth d : ℚ) : ℚ :=
  if totalDepth ≤ max d 0 then totalDepth - XTOL else max d 0

/-- The post-integration clamping block of gwater_getGroundwater
(gwater.c lines 557-568), applied to the state pair returned by the ODE
solver. -/
def clampGWState (a : TAquifer) (totalDepth : ℚ) (x : ℚ × ℚ) : ℚ × ℚ :=
  ((clampTheta a totalDepth x).1,
   clampDepth totalDepth (clampTheta a totalDepth x).2)

/-- Inputs of one gwater_getGroundwater call: the subcatchment fields it reads
plus its external collaborators.  solverResult is the black-box adaptive ODE
integrator, mapping the initial (theta, lowerDepth) pair to the integrated
pair; latFlowExprVal and deepFlowExprVal are the values the external
expression evaluator returns for the optional user flow expressions (none
when no expression was supplied). -/
structure StepInputs where
  gw : Option TGroundwater
  aquifer : TAquifer
  node : TNode
  fracPerv : ℚ
  area : ℚ
  evapRate : ℚ
  patFactor : Option ℚ
  latFlowExprVal : Option ℚ
  deepFlowExprVal : Option ℚ
  ucfLength : ℚ
  ucfRainfall : ℚ
  ucfGwflow : ℚ
  powFn : ℚ → ℚ → ℚ
  expFn : ℚ → ℚ
  solverResult : ℚ → ℚ → ℚ × ℚ

/-- Result of one gwater_getGroundwater call: the (possibly unchanged)
groundwater state, and the reports the step emits to the mass-balance and
statistics sinks (none when the step returned early).  The end-of-step flux
evaluation is also exposed for the reporting theorems. -/
structure StepResult where
  gw : Option TGroundwater
  fluxes : Option Fluxes
  massbal : Option MassBalVols
  stats : Option StatsReport
  deriving DecidableEq

/-- The shared context built by gwater_getGroundwater (gwater.c lines
489-551) before integration. -/
def mkContext (inp : StepInputs) (g : TGroundwater) (evap infil tStep : ℚ) :
    GwaterShared :=
  let infilR := infil / inp.area / tStep
  let evapR := evap / inp.area / tStep
  let maxEvap := inp.evapRate * inp.fracPerv
  let totalDepth := g.surfElev - g.bottomElev
  let hstar :=
    if g.nodeElev ≠ MISSING then g.nodeElev - g.bottomElev
    else inp.node.invertElev - g.bottomElev
  let hsw :=
    if 0 < g.fixedDepth then g.fixedDepth + inp.node.invertElev - g.bottomElev
    else inp.node.newDepth + inp.node.invertElev - g.bottomElev
  let vUpper := max ((totalDepth - g.lowerDepth) * (g.theta - inp.aquifer.fieldCapacity)) 0
  let nodeFlow := (inp.node.inflow + inp.node.newVolume / tStep) / inp.area
  { A := inp.aquifer
    GW := g
    infil := infilR
    maxEvap := maxEvap
    availEvap := max (maxEvap - evapR) 0
    totalDepth := totalDepth
    hstar := hstar
    hsw := hsw
    maxUpperPerc := vUpper / tStep
    maxGWFlowPos := g.lowerDepth * inp.aquifer.porosity / tStep
    maxGWFlowNeg := -min ((totalDepth - g.lowerDepth) * (inp.aquifer.porosity - g.theta) / tStep) nodeFlow
    tstep := tStep
    area := inp.area
    fracPerv := inp.fracPerv
    patFactor := inp.patFactor
    latFlowExprVal := inp.latFlowExprVal
    deepFlowExprVal := inp.deepFlowExprVal
    ucfLength := inp.ucfLength
    ucfRainfall := inp.ucfRainfall
    ucfGwflow := inp.ucfGwflow
    powFn := inp.powFn
    expFn := inp.expFn }

/-- The state commit of gwater_getGroundwater (gwater.c lines 570-582):
clamped state, shifted flows, combined evaporation loss and the next-step
maximum infiltration volume. -/
def commitState (c : GwaterShared) (g : TGroundwater) (x : ℚ × ℚ)
    (fl : Fluxes) : TGroundwater :=
  { g with
    theta := x.1
    lowerDepth := x.2
    oldFlow := g.newFlow
    newFlow := fl.gwFlow
    evapLoss := fl.upperEvap + fl.lowerEvap
    maxInfilVol := (c.totalDepth - x.2) * (c.A.porosity - x.1) / c.fracPerv }

/-- Body of gwater_getGroundwater once the groundwater object is known to be
present (gwater.c lines 478-591). -/
def gwStep (inp : StepInputs) (g : TGroundwater) (evap infil tStep : ℚ) :
    StepResult :=
  if inp.fracPerv ≤ 0 then ⟨some g, none, none, none⟩
  else if g.surfElev - g.bottomElev ≤ 0 then ⟨some g, none, none, none⟩
  else
    let c := mkContext inp g evap infil tStep
    let x := clampGWState inp.aquifer c.totalDepth (inp.solverResult g.theta g.lowerDepth)
    let fl := getFluxes c x.1 x.2
    let g2 := commitState c g x fl
    let mb := updateMassBal c.infil fl.upperEvap fl.lowerEvap fl.lowerLoss
      g2.oldFlow g2.newFlow c.area tStep
    let st : StatsReport :=
      { infil := c.infil, evapLoss := g2.evapLoss, gwFlow := fl.gwFlow,
        lowerLoss := fl.lowerLoss, theta := g2.theta,
        wtElev := g2.lowerDepth + g.bottomElev, tStep := tStep }
    ⟨some g2, some fl, some mb, some st⟩

/-- gwater_getGroundwater (gwater.c lines 455-591): one groundwater step for
one subcatchment. -/
def gwater_getGroundwater (inp : StepInputs) (evap infil tStep : ℚ) :
    StepResult :=
  match inp.gw with
  | none => ⟨none, none, none, none⟩
  | some g => gwStep inp g evap infil tStep

/-- Committed lower-zone depth of a step result (0 when no state). -/
def committedLowerDepth (r : StepResult) : ℚ :=
  r.gw.elim 0 TGroundwater.lowerDepth

/-! Concrete fixtures for witnesses and counterexamples, built from the
spec §8 scenario (porosity 0.43, field capacity 0.20, wilting point 0.09,
total depth 6 ft, theta 0.25, lower depth 2 ft). -/

/-- Concrete aquifer fixture. -/
def aqW : TAquifer :=
  { porosity := 43 / 100, wiltingPoint := 9 / 100, fieldCapacity := 1 / 5,
    conductivity := 1, conductSlope := 0, tensionSlope := 0,
    upperEvapFrac := 1 / 2, lowerEvapDepth := 1, lowerLossCoeff := 1 / 100,
    bottomElev := 0, waterTableElev := 2, upperMoisture := 1 / 4 }

/-- Concrete groundwater state fixture. -/
def gwW : TGroundwater :=
  { surfElev := 6, a1 := 1 / 10, b1 := 0, a2 := 0, b2 := 0, a3 := 0,
    fixedDepth := 0, nodeElev := MISSING, bottomElev := 0,
    waterTableElev := 2, upperMoisture := 1 / 4, theta := 1 / 4,
    lowerDepth := 2, oldFlow := 0, newFlow := 0, evapLoss := 0,
    maxInfilVol := 1 }

/-- Concrete drainage-node fixture. -/
def nodeW : TNode :=
  { invertElev := 1, newDepth := 0, inflow := 0, newVolume := 0 }

/-- Concrete shared-context fixture. -/
def ctxW : GwaterShared :=
  { A := aqW, GW := gwW, infil := 0, maxEvap := 1 / 100,
    availEvap := 1 / 100, totalDepth := 6, hstar := 1, hsw := 1,
    maxUpperPerc := 1, maxGWFlowPos := 1, maxGWFlowNeg := -1,
    tstep := 3600, area := 1, fracPerv := 1, patFactor := none,
    latFlowExprVal := none, deepFlowExprVal := none, ucfLength := 1,
    ucfRainfall := 1, ucfGwflow := 1, powFn := fun _ _ => 0,
    expFn := fun _ => 1 }

/-- Concrete step-input fixture; the black-box integrator returns a fixed
post-integration pair. -/
def inpW : StepInputs :=
  { gw := some gwW, aquifer := aqW, node := nodeW, fracPerv := 1, area := 1,
    evapRate := 0, patFactor := none, latFlowExprVal := none,
    deepFlowExprVal := none, ucfLength := 1, ucfRainfall := 1,
    ucfGwflow := 1, powFn := fun _ _ => 0, expFn := fun _ => 1,
    solverResult := fun _ _ => (1 / 5, 1) }

/-- Groundwater state with a degenerate, yet strictly positive, total zone
depth of 0.0005 ft, below the XTOL tolerance. -/
def gwThin : TGroundwater :=
  { gwW with surfElev := 1 / 2000, lowerDepth := 1 / 4000, theta := 1 / 5 }

/-- Step inputs whose total zone depth is positive but smaller than XTOL. -/
def inpThin : StepInputs :=
  { inpW with gw := some gwThin }

/-! Theorems. -/

/-- C1: for a groundwater state, setState applied to the 4-tuple returned by
getState restores a state whose getState tuple is identical, and a setState
whose fourth element is the MISSING sentinel leaves the stored maximum
infiltration volume unchanged. -/
theorem c1_state_roundtrip (gw : TGroundwater) :
    gwater_getState (gwater_setState gw (gwater_getState gw)) =
      gwater_getState gw ∧
    ∀ a b c : ℚ,
      (gwater_setState gw (a, b, c, MISSING)).maxInfilVol = gw.maxInfilVol := by
  constructor
  · unfold gwater_getState gwater_setState
    by_cases h : gw.maxInfilVol = MISSING <;> simp [h]
  · intro a b c
    unfold gwater_setState
    simp

/-- C3: whenever the surface infiltration rate of the step is strictly
positive, getEvapRates returns zero for both the upper and the lower zone
evaporation rates, whatever theta, the upper zone depth and the evaporation
parameters are. -/
theorem c3_no_evap_during_infil (c : GwaterShared) (theta upperDepth : ℚ)
    (h : 0 < c.infil) : getEvapRates c theta upperDepth = (0, 0) := by
  unfold getEvapRates
  rw [if_pos h]

/-- Witness for c3_no_evap_during_infil at a concrete context. -/
theorem c3_witness :
    0 < ({ ctxW with infil := 1 } : GwaterShared).infil ∧
    getEvapRates { ctxW with infil := 1 } (1 / 4) 4 = (0, 0) :=
  ⟨by norm_num, c3_no_evap_during_infil { ctxW with infil := 1 } (1 / 4) 4 (by norm_num)⟩

/-- C8: gwater_getVolume returns 0 when groundwater is disabled, returns
(totalDepth - lowerDepth) * theta + lowerDepth * porosity when enabled, and
is monotonically non-decreasing in theta (when lowerDepth is at most the
total depth) and in lowerDepth (when theta is at most the porosity), all
else fixed. -/
theorem c8_volume (a : TAquifer) (g : TGroundwater) :
    gwater_getVolume none a = 0 ∧
    gwater_getVolume (some g) a =
      (g.surfElev - g.bottomElev - g.lowerDepth) * g.theta +
        g.lowerDepth * a.porosity ∧
    (∀ t1 t2 : ℚ, t1 ≤ t2 → g.lowerDepth ≤ g.surfElev - g.bottomElev →
      gwater_getVolume (some { g with theta := t1 }) a ≤
        gwater_getVolume (some { g with theta := t2 }) a) ∧
    (∀ d1 d2 : ℚ, d1 ≤ d2 → g.theta ≤ a.porosity →
      gwater_getVolume (some { g with lowerDepth := d1 }) a ≤
        gwater_getVolume (some { g with lowerDepth := d2 }) a) := by
  refine ⟨rfl, rfl, ?_, ?_⟩
  · intro t1 t2 ht hl
    unfold gwater_getVolume
    dsimp only
    nlinarith [mul_le_mul_of_nonneg_left ht (sub_nonneg.mpr hl)]
  · intro d1 d2 hd hp
    unfold gwater_getVolume
    dsimp only
    nlinarith [mul_nonneg (sub_nonneg.mpr hd) (sub_nonneg.mpr hp)]

/-- Witness for c8_volume at a concrete state: monotonicity in theta and in
lowerDepth at concrete arguments. -/
theorem c8_witness :
    ((1 : ℚ) / 4 ≤ 2 / 5 ∧ gwW.lowerDepth ≤ gwW.surfElev - gwW.bottomElev ∧
      (1 : ℚ) ≤ 3 ∧ gwW.theta ≤ aqW.porosity) ∧
    gwater_getVolume (some { gwW with theta := 1 / 4 }) aqW ≤
      gwater_getVolume (some { gwW with theta := 2 / 5 }) aqW ∧
    gwater_getVolume (some { gwW with lowerDepth := 1 }) aqW ≤
      gwater_getVolume (some { gwW with lowerDepth := 3 }) aqW :=
  ⟨⟨by norm_num, by norm_num [gwW], by norm_num, by norm_num [gwW, aqW]⟩,
    (c8_volume aqW gwW).2.2.1 (1 / 4) (2 / 5) (by norm_num) (by norm_num [gwW]),
    (c8_volume aqW gwW).2.2.2 1 3 (by norm_num) (by norm_num [gwW, aqW])⟩

/-- C10: when the available evaporation headroom is non-negative, the upper
and lower zone evaporation rates computed by getEvapRates together never
exceed it. -/
theorem c10_evap_within_avail (c : GwaterShared) (theta upperDepth : ℚ)
    (h : 0 ≤ c.availEvap) :
    (getEvapRates c theta upperDepth).1 + (getEvapRates c theta upperDepth).2 ≤
      c.availEvap := by
  unfold getEvapRates
  by_cases hI : 0 < c.infil
  · rw [if_pos hI]
    simpa using h
  · rw [if_neg hI]
    dsimp only
    have hu : gwUpperEvap c theta ≤ c.availEvap := by
      unfold gwUpperEvap
      split_ifs with hw
      · exact min_le_right _ _
      · exact h
    unfold gwLowerEvap
    split_ifs with hl
    · have h2 := min_le_right
        (gwLowerFrac c upperDepth * (1 - gwUpperFrac c) * c.maxEvap)
        (c.availEvap - gwUpperEvap c theta)
      linarith
    · simpa using hu

/-- Witness for c10_evap_within_avail at a concrete context. -/
theorem c10_witness :
    0 ≤ ctxW.availEvap ∧
    (getEvapRates ctxW (1 / 4) 4).1 + (getEvapRates ctxW (1 / 4) 4).2 ≤
      ctxW.availEvap :=
  ⟨by norm_num [ctxW], c10_evap_within_avail ctxW (1 / 4) 4 (by norm_num [ctxW])⟩

/-- C4: at a lower-zone depth at or below the boundary height Hstar the
built-in lateral formula getGWFlow returns exactly 0; hence, when no user
lateral-flow expression is present (and the step context satisfies the
standing invariants that make the clamps no-ops: the depth already lies in
[0, totalDepth] and the positive-flow ceiling is non-negative), the lateral
flow getFluxes commits for the step is exactly 0. -/
theorem c4_no_flow_below_hstar (c : GwaterShared) (theta l : ℚ)
    (hlat : c.latFlowExprVal = none) (h0 : 0 ≤ l) (hD : l ≤ c.totalDepth)
    (hs : l ≤ c.hstar) (hpos : 0 ≤ c.maxGWFlowPos) :
    getGWFlow c l = 0 ∧ (getFluxes c theta l).gwFlow = 0 := by
  have hgw : getGWFlow c l = 0 := by
    unfold getGWFlow
    rw [if_pos hs]
  refine ⟨hgw, ?_⟩
  have hcl : clampLowerDepth c l = l := by
    unfold clampLowerDepth
    rw [max_eq_left h0, min_eq_left hD]
  have hfl : (getFluxes c theta l).gwFlow = gwLatFlow c (clampLowerDepth c l) := rfl
  rw [hfl, hcl]
  unfold gwLatFlow gwLatFlowRaw
  rw [hlat]
  simp only [hgw]
  rw [if_pos le_rfl]
  exact min_eq_left hpos

/-- Witness for c4_no_flow_below_hstar at a concrete context with the lower
depth below Hstar. -/
theorem c4_witness :
    (ctxW.latFlowExprVal = none ∧ (0 : ℚ) ≤ 1 / 2 ∧
      (1 : ℚ) / 2 ≤ ctxW.totalDepth ∧ (1 : ℚ) / 2 ≤ ctxW.hstar ∧
      0 ≤ ctxW.maxGWFlowPos) ∧
    getGWFlow ctxW (1 / 2) = 0 ∧ (getFluxes ctxW (1 / 4) (1 / 2)).gwFlow = 0 :=
  ⟨⟨rfl, by norm_num, by norm_num [ctxW], by norm_num [ctxW], by norm_num [ctxW]⟩,
    c4_no_flow_below_hstar ctxW (1 / 4) (1 / 2) rfl (by norm_num)
      (by norm_num [ctxW]) (by norm_num [ctxW]) (by norm_num [ctxW])⟩

/-- C6: above the Hstar threshold, when the combined unit-converted built-in
flow is negative, getGWFlow returns 0 exactly when the interaction
coefficient a3 is nonzero; with a3 = 0 the negative combined flow is
returned unchanged. -/
theorem c6_conditional_negative_clamp (c : GwaterShared) (l : ℚ)
    (hl : c.hstar < l) (hq : gwRawFlow c l < 0) :
    (getGWFlow c l = 0 ↔ c.GW.a3 ≠ 0) ∧
    (c.GW.a3 = 0 → getGWFlow c l = gwRawFlow c l) := by
  have hne : ¬ l ≤ c.hstar := not_le.mpr hl
  unfold getGWFlow
  rw [if_neg hne]
  by_cases ha : c.GW.a3 = 0
  · rw [if_neg fun hand => hand.2 ha]
    exact ⟨⟨fun h0 => absurd h0 (ne_of_lt hq), fun h3 => absurd ha h3⟩,
      fun _ => rfl⟩
  · rw [if_pos ⟨hq, ha⟩]
    exact ⟨⟨fun _ => ha, fun _ => rfl⟩, fun h => absurd h ha⟩

/-- Concrete context with a negative combined built-in flow (a1 = -1,
b1 = b2 = 0, a3 = 0, Hstar = 0). -/
def ctxNegFlow : GwaterShared :=
  { ctxW with GW := { gwW with a1 := -1 }, hstar := 0 }

/-- Witness for c6_conditional_negative_clamp: with a3 = 0 the negative raw
flow -1 passes through unclamped. -/
theorem c6_witness :
    (ctxNegFlow.hstar < 1 ∧ gwRawFlow ctxNegFlow 1 < 0 ∧
      ctxNegFlow.GW.a3 = 0) ∧
    getGWFlow ctxNegFlow 1 = gwRawFlow ctxNegFlow 1 :=
  ⟨⟨by norm_num [ctxNegFlow, ctxW],
    by norm_num [ctxNegFlow, ctxW, gwRawFlow, gwW],
    by norm_num [ctxNegFlow, ctxW, gwW]⟩,
    (c6_conditional_negative_clamp ctxNegFlow 1
      (by norm_num [ctxNegFlow, ctxW])
      (by norm_num [ctxNegFlow, ctxW, gwRawFlow, gwW])).2
      (by norm_num [ctxNegFlow, ctxW, gwW])⟩

/-- C7: the deep-loss rate committed by getFluxes is always capped at the
clamped lower depth divided by the time step, and without a user deep-flow
expression it equals the coefficient formula
lowerLossCoefficient * lowerDepth / totalDepth (on the clamped depth),
subject to that cap. -/
theorem c7_deep_loss (c : GwaterShared) (theta lowerDepth : ℚ) :
    (getFluxes c theta lowerDepth).lowerLoss ≤
      clampLowerDepth c lowerDepth / c.tstep ∧
    (c.deepFlowExprVal = none →
      (getFluxes c theta lowerDepth).lowerLoss =
        min (c.A.lowerLossCoeff * clampLowerDepth c lowerDepth / c.totalDepth)
          (clampLowerDepth c lowerDepth / c.tstep)) := by
  have hfl : (getFluxes c theta lowerDepth).lowerLoss =
      gwLowerLoss c (clampLowerDepth c lowerDepth) := rfl
  constructor
  · rw [hfl]
    unfold gwLowerLoss
    exact min_le_right _ _
  · intro hdeep
    rw [hfl]
    unfold gwLowerLoss
    rw [hdeep]

/-- Witness for c7_deep_loss at a concrete context without a user deep-flow
expression. -/
theorem c7_witness :
    ctxW.deepFlowExprVal = none ∧
    (getFluxes ctxW (1 / 4) 2).lowerLoss =
      min (ctxW.A.lowerLossCoeff * clampLowerDepth ctxW 2 / ctxW.totalDepth)
        (clampLowerDepth ctxW 2 / ctxW.tstep) :=
  ⟨rfl, (c7_deep_loss ctxW (1 / 4) 2).2 rfl⟩

/-- Bounds delivered by the moisture clamp when the wilting point sits at
least XTOL below the porosity. -/
theorem clampTheta_bounds (a : TAquifer) (D : ℚ) (x : ℚ × ℚ)
    (hwp : a.wiltingPoint + XTOL ≤ a.porosity) :
    a.wiltingPoint ≤ (clampTheta a D x).1 ∧ (clampTheta a D x).1 < a.porosity := by
  have hx : (0 : ℚ) < XTOL := by norm_num [XTOL]
  unfold clampTheta
  split_ifs with h
  · dsimp only
    constructor <;> linarith
  · dsimp only
    exact ⟨le_max_right _ _, not_le.mp h⟩

/-- Bounds delivered by the depth clamp when the total depth is at least
XTOL. -/
theorem clampDepth_bounds (D d : ℚ) (hD : XTOL ≤ D) :
    0 ≤ clampDepth D d ∧ clampDepth D d < D := by
  have hx : (0 : ℚ) < XTOL := by norm_num [XTOL]
  unfold clampDepth
  split_ifs with h
  · constructor <;> linarith
  · exact ⟨le_max_right _ _, not_le.mp h⟩

/-- C2 (amended): for every step of gwater_getGroundwater that reaches the
post-integration clamping, provided additionally that the total depth is at
least the tolerance XTOL and the wilting point sits at least XTOL below the
porosity, the committed state satisfies wiltingPoint ≤ theta < porosity and
0 ≤ lowerDepth < totalDepth, with theta and lowerDepth nudged below
porosity and totalDepth by XTOL rather than set exactly to those limits. -/
theorem c2_clamp_invariants (inp : StepInputs) (g : TGroundwater)
    (evap infil tStep : ℚ) (hgw : inp.gw = some g)
    (hfp : ¬ inp.fracPerv ≤ 0)
    (hD : XTOL ≤ g.surfElev - g.bottomElev)
    (hwp : inp.aquifer.wiltingPoint + XTOL ≤ inp.aquifer.porosity) :
    ∃ g2, (gwater_getGroundwater inp evap infil tStep).gw = some g2 ∧
      inp.aquifer.wiltingPoint ≤ g2.theta ∧ g2.theta < inp.aquifer.porosity ∧
      0 ≤ g2.lowerDepth ∧ g2.lowerDepth < g.surfElev - g.bottomElev := by
  have hx : (0 : ℚ) < XTOL := by norm_num [XTOL]
  have hD0 : ¬ g.surfElev - g.bottomElev ≤ 0 := by
    push_neg
    linarith
  obtain ⟨h1, h2⟩ := clampTheta_bounds inp.aquifer (g.surfElev - g.bottomElev)
    (inp.solverResult g.theta g.lowerDepth) hwp
  obtain ⟨h3, h4⟩ := clampDepth_bounds (g.surfElev - g.bottomElev)
    (clampTheta inp.aquifer (g.surfElev - g.bottomElev)
      (inp.solverResult g.theta g.lowerDepth)).2 hD
  unfold gwater_getGroundwater
  rw [hgw]
  unfold gwStep
  dsimp only
  rw [if_neg hfp, if_neg hD0]
  exact ⟨_, rfl, h1, h2, h3, h4⟩

/-- Witness for c2_clamp_invariants at a concrete step. -/
theorem c2_witness :
    (inpW.gw = some gwW ∧ ¬ inpW.fracPerv ≤ 0 ∧
      XTOL ≤ gwW.surfElev - gwW.bottomElev ∧
      inpW.aquifer.wiltingPoint + XTOL ≤ inpW.aquifer.porosity) ∧
    ∃ g2, (gwater_getGroundwater inpW 0 0 1800).gw = some g2 ∧
      inpW.aquifer.wiltingPoint ≤ g2.theta ∧
      g2.theta < inpW.aquifer.porosity ∧
      0 ≤ g2.lowerDepth ∧ g2.lowerDepth < gwW.surfElev - gwW.bottomElev :=
  ⟨⟨rfl, by norm_num [inpW], by norm_num [gwW, XTOL],
    by norm_num [inpW, aqW, XTOL]⟩,
    c2_clamp_invariants inpW gwW 0 0 1800 rfl (by norm_num [inpW])
      (by norm_num [gwW, XTOL]) (by norm_num [inpW, aqW, XTOL])⟩

/-- C2 counterexample: the claim as stated fails when the total zone depth,
although strictly positive, is smaller than the tolerance XTOL.  With a
total depth of 0.0005 ft and an integrated lower depth of 1 ft, the final
depth clamp assigns totalDepth - XTOL = -0.0005 ft, so the committed lower
depth is negative even though groundwater is enabled, the pervious fraction
is 1 and the total depth is positive. -/
theorem c2_counterexample :
    inpThin.gw = some gwThin ∧ 0 < inpThin.fracPerv ∧
    0 < gwThin.surfElev - gwThin.bottomElev ∧
    committedLowerDepth (gwater_getGroundwater inpThin 0 0 1) < 0 := by
  refine ⟨rfl, by norm_num [inpThin, inpW], by norm_num [gwThin, gwW], ?_⟩
  norm_num [committedLowerDepth, gwater_getGroundwater, gwStep, inpThin, inpW,
    gwThin, gwW, aqW, nodeW, mkContext, commitState, clampGWState, clampTheta,
    clampDepth, XTOL, MISSING]

/-- C5: for every completed step, the five volumes reported to the
mass-balance sink are the corresponding end-of-step rates multiplied by
area times tStep, the exchanged-groundwater volume being the trapezoidal
average of the previous and the newly committed lateral flow. -/
theorem c5_massbal_volumes (inp : StepInputs) (g : TGroundwater)
    (evap infil tStep : ℚ) (hgw : inp.gw = some g)
    (hfp : ¬ inp.fracPerv ≤ 0) (hD : ¬ g.surfElev - g.bottomElev ≤ 0) :
    ∃ fl mb, (gwater_getGroundwater inp evap infil tStep).fluxes = some fl ∧
      (gwater_getGroundwater inp evap infil tStep).massbal = some mb ∧
      mb.vInfil = infil / inp.area / tStep * (inp.area * tStep) ∧
      mb.vUpperEvap = fl.upperEvap * (inp.area * tStep) ∧
      mb.vLowerEvap = fl.lowerEvap * (inp.area * tStep) ∧
      mb.vLowerPerc = fl.lowerLoss * (inp.area * tStep) ∧
      mb.vGwater = 1 / 2 * (g.newFlow + fl.gwFlow) * (inp.area * tStep) := by
  unfold gwater_getGroundwater
  rw [hgw]
  unfold gwStep
  dsimp only
  rw [if_neg hfp, if_neg hD]
  exact ⟨_, _, rfl, rfl, rfl, rfl, rfl, rfl, rfl⟩

/-- Witness for c5_massbal_volumes at a concrete step. -/
theorem c5_witness :
    (inpW.gw = some gwW ∧ ¬ inpW.fracPerv ≤ 0 ∧
      ¬ gwW.surfElev - gwW.bottomElev ≤ 0) ∧
    ∃ fl mb, (gwater_getGroundwater inpW 0 0 1800).fluxes = some fl ∧
      (gwater_getGroundwater inpW 0 0 1800).massbal = some mb ∧
      mb.vInfil = 0 / inpW.area / 1800 * (inpW.area * 1800) ∧
      mb.vUpperEvap = fl.upperEvap * (inpW.area * 1800) ∧
      mb.vLowerEvap = fl.lowerEvap * (inpW.area * 1800) ∧
      mb.vLowerPerc = fl.lowerLoss * (inpW.area * 1800) ∧
      mb.vGwater = 1 / 2 * (gwW.newFlow + fl.gwFlow) * (inpW.area * 1800) :=
  ⟨⟨rfl, by norm_num [inpW], by norm_num [gwW]⟩,
    c5_massbal_volumes inpW gwW 0 0 1800 rfl (by norm_num [inpW])
      (by norm_num [gwW])⟩

/-- C9: a gwater_getGroundwater call with groundwater disabled, a
non-positive pervious fraction or a non-positive total zone depth returns
early: the groundwater state is unchanged and nothing is reported to the
mass-balance or statistics sinks. -/
theorem c9_early_return_frame (inp : StepInputs) (evap infil tStep : ℚ)
    (h : inp.gw = none ∨ ∃ g, inp.gw = some g ∧
      (inp.fracPerv ≤ 0 ∨ g.surfElev - g.bottomElev ≤ 0)) :
    (gwater_getGroundwater inp evap infil tStep).gw = inp.gw ∧
    (gwater_getGroundwater inp evap infil tStep).fluxes = none ∧
    (gwater_getGroundwater inp evap infil tStep).massbal = none ∧
    (gwater_getGroundwater inp evap infil tStep).stats = none := by
  rcases h with h | ⟨g, hg, hcase⟩
  · unfold gwater_getGroundwater
    rw [h]
    exact ⟨rfl, rfl, rfl, rfl⟩
  · unfold gwater_getGroundwater
    rw [hg]
    unfold gwStep
    dsimp only
    by_cases h1 : inp.fracPerv ≤ 0
    · rw [if_pos h1]
      exact ⟨rfl, rfl, rfl, rfl⟩
    · rcases hcase with h2 | h2
      · exact absurd h2 h1
      · rw [if_neg h1, if_pos h2]
        exact ⟨rfl, rfl, rfl, rfl⟩

/-- Step inputs with groundwater enabled but a zero pervious fraction. -/
def inpNoPerv : StepInputs :=
  { inpW with fracPerv := 0 }

/-- Witness for c9_early_return_frame: zero pervious fraction skips the step
with no state change and no reports. -/
theorem c9_witness :
    (inpNoPerv.gw = some gwW ∧ inpNoPerv.fracPerv ≤ 0) ∧
    (gwater_getGroundwater inpNoPerv 1 1 1800).gw = inpNoPerv.gw ∧
    (gwater_getGroundwater inpNoPerv 1 1 1800).fluxes = none ∧
    (gwater_getGroundwater inpNoPerv 1 1 1800).massbal = none ∧
    (gwater_getGroundwater inpNoPerv 1 1 1800).stats = none :=
  ⟨⟨rfl, by norm_num [inpNoPerv]⟩,
    c9_early_return_frame inpNoPerv 1 1 1800
      (Or.inr ⟨gwW, rfl, Or.inl (by norm_num [inpNoPerv])⟩)⟩

end Gwater
